import Mathlib

/-!
Formal model of the `paso-02-wifi-station` firmware: the secure credential
store (`src/secure_storage.rs`), the provisioning HTTP submission handler and
URL decoder (`src/provisioning.rs`), and the WiFi join configuration step
(`src/wifi.rs`).

The NVS flash partition is modelled as an association-list key-value store
(one map for string values, one for u8 values); a newly written key shadows
older entries, and lookups take the most recent entry, which matches the
key-value semantics of the real partition.  Fallible NVS writes are driven
by an explicit oracle `wOk : Nat → Bool` giving the flash-layer outcome of
the n-th write issued by `store_credentials`; a string write additionally
fails, deterministically, when its value contains a NUL byte, which the
platform's `CString::new` conversion inside `set_str` rejects.  The
fallible flag read inside `is_provisioned` is driven by a boolean
`readOk`.  The field reads of `load_credentials` go through the source's
256-byte transient buffer: a present value over 255 UTF-8 bytes does not
fit and the resulting `get_str` error propagates out of the load (the `?`
operator); otherwise reads are reliable.  Mutex lock acquisition in
the HTTP handler is modelled as succeeding (locks in the source are only
poisoned by a panic while held, and no code in the source panics while
holding one).  The fixed-capacity string conversions of the radio
configuration (`try_into`) and the radio/HTTP platform calls themselves are
capability boundaries and are not re-modelled.
-/

namespace Paso02

-- ── Keys of the persisted layout (src/secure_storage.rs lines 17-22) ──

def KEY_WIFI_SSID : String := "wifi_ssid"

def KEY_WIFI_PASS : String := "wifi_pass"

def KEY_API_KEY : String := "api_key"

def KEY_DEVICE_ID : String := "device_id"

def KEY_PROVISIONED : String := "provisioned"

-- ── Credential record (src/secure_storage.rs lines 31-37) ──

structure Credentials where
  wifi_ssid : String
  wifi_password : String
  api_key : String
  device_id : String
deriving DecidableEq, Repr

-- ── NVS key-value model ──

structure Nvs where
  strs : List (String × String)
  u8s : List (String × Nat)
deriving DecidableEq, Repr

def emptyNvs : Nvs := ⟨[], []⟩

def Nvs.setStr (n : Nvs) (k v : String) : Nvs :=
  { n with strs := (k, v) :: n.strs }

def Nvs.setU8 (n : Nvs) (k : String) (v : Nat) : Nvs :=
  { n with u8s := (k, v) :: n.u8s }

def Nvs.getStr (n : Nvs) (k : String) : Option String :=
  (n.strs.find? (fun p => p.1 == k)).map (fun p => p.2)

def Nvs.getU8 (n : Nvs) (k : String) : Option Nat :=
  (n.u8s.find? (fun p => p.1 == k)).map (fun p => p.2)

-- ── UTF-8 encoding and byte length ──
-- Rust's `str::len` and the NVS value sizes count UTF-8 bytes, not
-- characters; `utf8Encode` is the standard UTF-8 encoding of a string and
-- `utf8ByteLength` its length.  (`utf8Encode` is also used later to
-- present concrete HTTP request bodies as byte lists.)

def utf8EncodeChar (c : Char) : List Nat :=
  let n := c.toNat
  if n ≤ 0x7F then [n]
  else if n ≤ 0x7FF then [0xC0 + n / 0x40, 0x80 + n % 0x40]
  else if n ≤ 0xFFFF then
    [0xE0 + n / 0x1000, 0x80 + (n / 0x40) % 0x40, 0x80 + n % 0x40]
  else
    [0xF0 + n / 0x40000, 0x80 + (n / 0x1000) % 0x40,
      0x80 + (n / 0x40) % 0x40, 0x80 + n % 0x40]

def utf8Encode (s : String) : List Nat :=
  (s.data.map utf8EncodeChar).flatten

def utf8ByteLength (s : String) : Nat :=
  (utf8Encode s).length

-- Whether a string contains a NUL byte anywhere.  `EspNvs::set_str`
-- converts its value argument with `CString::new`, which deterministically
-- rejects values containing an interior NUL, so such a write always fails.

def containsNul (s : String) : Bool :=
  s.data.any (fun c => c == '\x00')

-- ── is_provisioned (src/secure_storage.rs lines 63-72) ──
-- `readOk = false` models the `Err(e)` arm of the `get_u8` match, which the
-- source logs and converts to `Ok(false)`; the function is total (it never
-- propagates the read failure).

def is_provisioned (readOk : Bool) (nvs : Nvs) : Bool :=
  if readOk then
    match nvs.getU8 KEY_PROVISIONED with
    | some val => val == 1
    | none => false
  else false

-- ── store_credentials (src/secure_storage.rs lines 78-92) ──
-- Five writes in source order: ssid, pass, api_key, device_id, then the
-- provisioned flag.  A `set_str` write succeeds when the flash layer does
-- (`wOk n`, the oracle outcome of the n-th write) and its value survives
-- the `CString::new` conversion, i.e. contains no NUL byte; the `set_u8`
-- flag write involves no string conversion.  A failed write leaves the
-- store as it was before that write and aborts the sequence (the `?`
-- operator), returning failure.  The zeroization of the input record is a
-- memory-level effect with no observable content here.

def store_credentials (wOk : Nat → Bool) (nvs : Nvs) (creds : Credentials) :
    Nvs × Bool :=
  if (wOk 0 && !containsNul creds.wifi_ssid) = false then (nvs, false) else
  let n0 := nvs.setStr KEY_WIFI_SSID creds.wifi_ssid
  if (wOk 1 && !containsNul creds.wifi_password) = false then (n0, false) else
  let n1 := n0.setStr KEY_WIFI_PASS creds.wifi_password
  if (wOk 2 && !containsNul creds.api_key) = false then (n1, false) else
  let n2 := n1.setStr KEY_API_KEY creds.api_key
  if (wOk 3 && !containsNul creds.device_id) = false then (n2, false) else
  let n3 := n2.setStr KEY_DEVICE_ID creds.device_id
  if wOk 4 = false then (n3, false) else
  (n3.setU8 KEY_PROVISIONED 1, true)

-- ── load_credentials (src/secure_storage.rs lines 98-130) ──
-- Each field is read with `self.nvs.get_str(key, &mut buf)?` through the
-- 256-byte transient buffer: an absent key yields `Ok(None)` and the field
-- keeps the `Credentials::default()` empty string; a stored value that
-- does not fit the buffer together with its terminator — over 255 bytes —
-- makes `get_str` return an error, which `?` propagates out of the load;
-- a read value is trimmed of trailing NUL characters
-- (`trim_end_matches('\0')`).  `getStrBuf` returns `none` for the error
-- case and `some (read result)` otherwise.

def trimEndNul (s : String) : String :=
  ⟨(s.data.reverse.dropWhile (fun c => c == '\x00')).reverse⟩

def getStrBuf (nvs : Nvs) (k : String) : Option (Option String) :=
  match nvs.getStr k with
  | none => some none
  | some v => if utf8ByteLength v ≤ 255 then some (some v) else none

def load_credentials (nvs : Nvs) : Option Credentials :=
  if is_provisioned true nvs = false then none
  else
    (getStrBuf nvs KEY_WIFI_SSID).bind fun r0 =>
    (getStrBuf nvs KEY_WIFI_PASS).bind fun r1 =>
    (getStrBuf nvs KEY_API_KEY).bind fun r2 =>
    (getStrBuf nvs KEY_DEVICE_ID).bind fun r3 =>
    some {
      wifi_ssid := (match r0 with
        | some v => trimEndNul v
        | none => ""),
      wifi_password := (match r1 with
        | some v => trimEndNul v
        | none => ""),
      api_key := (match r2 with
        | some v => trimEndNul v
        | none => ""),
      device_id := (match r3 with
        | some v => trimEndNul v
        | none => "") }

-- ── Lookup/update lemmas for the NVS model ──

theorem getStr_setStr_self (n : Nvs) (k v : String) :
    (n.setStr k v).getStr k = some v := by
  simp [Nvs.setStr, Nvs.getStr, List.find?]

theorem getStr_setStr_of_ne (n : Nvs) (k k' v : String) (h : k ≠ k') :
    (n.setStr k v).getStr k' = n.getStr k' := by
  simp only [Nvs.setStr, Nvs.getStr, List.find?]
  rw [show (k == k') = false from beq_eq_false_iff_ne.mpr h]

theorem getU8_setStr (n : Nvs) (k v : String) (k' : String) :
    (n.setStr k v).getU8 k' = n.getU8 k' := rfl

theorem getStr_setU8 (n : Nvs) (k : String) (v : Nat) (k' : String) :
    (n.setU8 k v).getStr k' = n.getStr k' := rfl

theorem getU8_setU8_self (n : Nvs) (k : String) (v : Nat) :
    (n.setU8 k v).getU8 k = some v := by
  simp [Nvs.setU8, Nvs.getU8, List.find?]

theorem trimEndNul_of_no_trailing_nul (s : String)
    (h : (match s.data.reverse with
      | [] => false
      | c :: _ => c == '\x00') = false) :
    trimEndNul s = s := by
  unfold trimEndNul
  cases s with
  | mk d =>
    cases hrev : d.reverse with
    | nil =>
      have hd : d = [] := by simpa using congrArg List.reverse hrev
      subst hd
      rfl
    | cons c cs =>
      have h2 : (match d.reverse with
        | [] => false
        | c :: _ => c == '\x00') = false := h
      rw [hrev] at h2
      have h' : (c == '\x00') = false := h2
      rw [List.dropWhile_cons]
      simp only [h', Bool.false_eq_true, if_false]
      rw [← hrev, List.reverse_reverse]

-- `endsInNul s = true` exactly when the last character of `s` is NUL.

def endsInNul (s : String) : Bool :=
  match s.data.reverse with
  | [] => false
  | c :: _ => c == '\x00'

theorem trimEndNul_of_endsInNul_false (s : String) (h : endsInNul s = false) :
    trimEndNul s = s := by
  apply trimEndNul_of_no_trailing_nul
  unfold endsInNul at h
  exact h

-- ── Characterisation of store_credentials outcomes ──

theorem store_snd_eq (wOk : Nat → Bool) (nvs : Nvs) (c : Credentials) :
    (store_credentials wOk nvs c).2 =
      ((wOk 0 && !containsNul c.wifi_ssid) &&
        (wOk 1 && !containsNul c.wifi_password) &&
        (wOk 2 && !containsNul c.api_key) &&
        (wOk 3 && !containsNul c.device_id) && wOk 4) := by
  cases h0 : (wOk 0 && !containsNul c.wifi_ssid) <;>
    cases h1 : (wOk 1 && !containsNul c.wifi_password) <;>
    cases h2 : (wOk 2 && !containsNul c.api_key) <;>
    cases h3 : (wOk 3 && !containsNul c.device_id) <;>
    cases h4 : wOk 4 <;>
    simp [store_credentials, h0, h1, h2, h3, h4]

theorem store_fst_u8s (wOk : Nat → Bool) (nvs : Nvs) (c : Credentials) :
    (store_credentials wOk nvs c).1.u8s =
      (if (wOk 0 && !containsNul c.wifi_ssid) &&
          (wOk 1 && !containsNul c.wifi_password) &&
          (wOk 2 && !containsNul c.api_key) &&
          (wOk 3 && !containsNul c.device_id) && wOk 4 then
        (KEY_PROVISIONED, 1) :: nvs.u8s else nvs.u8s) := by
  cases h0 : (wOk 0 && !containsNul c.wifi_ssid) <;>
    cases h1 : (wOk 1 && !containsNul c.wifi_password) <;>
    cases h2 : (wOk 2 && !containsNul c.api_key) <;>
    cases h3 : (wOk 3 && !containsNul c.device_id) <;>
    cases h4 : wOk 4 <;>
    simp [store_credentials, h0, h1, h2, h3, h4, Nvs.setStr, Nvs.setU8]

theorem store_success_fst (wOk : Nat → Bool) (nvs : Nvs) (c : Credentials)
    (h0 : wOk 0 = true) (n0 : containsNul c.wifi_ssid = false)
    (h1 : wOk 1 = true) (n1 : containsNul c.wifi_password = false)
    (h2 : wOk 2 = true) (n2 : containsNul c.api_key = false)
    (h3 : wOk 3 = true) (n3 : containsNul c.device_id = false)
    (h4 : wOk 4 = true) :
    (store_credentials wOk nvs c).1 =
      ((((nvs.setStr KEY_WIFI_SSID c.wifi_ssid).setStr KEY_WIFI_PASS
            c.wifi_password).setStr KEY_API_KEY c.api_key).setStr
          KEY_DEVICE_ID c.device_id).setU8 KEY_PROVISIONED 1 := by
  simp [store_credentials, h0, n0, h1, n1, h2, n2, h3, n3, h4]

theorem store_partial_fst (wOk : Nat → Bool) (nvs : Nvs) (c : Credentials)
    (h0 : wOk 0 = true) (n0 : containsNul c.wifi_ssid = false)
    (h1 : wOk 1 = true) (n1 : containsNul c.wifi_password = false)
    (h2 : wOk 2 = true) (n2 : containsNul c.api_key = false)
    (h3 : wOk 3 = true) (n3 : containsNul c.device_id = false)
    (h4 : wOk 4 = false) :
    (store_credentials wOk nvs c).1 =
      (((nvs.setStr KEY_WIFI_SSID c.wifi_ssid).setStr KEY_WIFI_PASS
          c.wifi_password).setStr KEY_API_KEY c.api_key).setStr
        KEY_DEVICE_ID c.device_id := by
  simp [store_credentials, h0, n0, h1, n1, h2, n2, h3, n3, h4]

-- A string with no NUL byte anywhere in particular does not end in one,
-- so the trailing-NUL trim of the load leaves it unchanged.

theorem endsInNul_false_of_not_containsNul (s : String)
    (h : containsNul s = false) : endsInNul s = false := by
  unfold containsNul at h
  unfold endsInNul
  cases hrev : s.data.reverse with
  | nil => rfl
  | cons c cs =>
    have hc : c ∈ s.data := by
      have h1 : c ∈ s.data.reverse := by
        rw [hrev]
        exact List.mem_cons_self _ _
      exact List.mem_reverse.mp h1
    simp only [List.any_eq_false] at h
    simpa using h c hc

-- When every value present under `k` fits the read buffer, the buffered
-- read returns exactly the lookup result.

theorem getStrBuf_eq_of_fit (nvs : Nvs) (k : String)
    (hfit : ∀ v, nvs.getStr k = some v → utf8ByteLength v ≤ 255) :
    getStrBuf nvs k = some (nvs.getStr k) := by
  unfold getStrBuf
  cases h : nvs.getStr k with
  | none => rfl
  | some v => simp [hfit v h]

-- ── Claim theorems about the secure credential store ──

/-- C7: `is_provisioned` returns `true` exactly when the stored flag byte
reads as 1; when the flag key is absent and when the underlying read fails
it returns `false`.  The model function is total (`Bool`-valued, like the
source, whose every arm returns `Ok`), so a read failure is never
propagated to the caller. -/
theorem c7_is_provisioned_semantics (nvs : Nvs) :
    (is_provisioned true nvs = true ↔ nvs.getU8 KEY_PROVISIONED = some 1)
  ∧ (nvs.getU8 KEY_PROVISIONED = none → is_provisioned true nvs = false)
  ∧ (is_provisioned false nvs = false) := by
  refine ⟨?_, ?_, rfl⟩
  · unfold is_provisioned
    cases h : nvs.getU8 KEY_PROVISIONED with
    | none => simp
    | some v => simp
  · intro h
    simp [is_provisioned, h]

theorem c7_witness : is_provisioned true emptyNvs = false :=
  (c7_is_provisioned_semantics emptyNvs).2.1 (by decide)

/-- C2: `store_credentials` writes the four credential fields before writing
the provisioned flag and returns failure on any intermediate write failure
without having written the flag: on failure the flag key is untouched (so a
subsequent `is_provisioned` reads exactly what it read before, in
particular `false` on a previously unprovisioned store), on success the
flag holds 1, and when exactly the four field writes succeed (their
flash-layer writes are up and their values pass the NUL-free `CString`
conversion) while the flag write fails, the four fields are stored and the
flag is still untouched. -/
theorem c2_flag_written_last (wOk : Nat → Bool) (nvs : Nvs)
    (creds : Credentials) :
    ((store_credentials wOk nvs creds).2 = false →
      (store_credentials wOk nvs creds).1.getU8 KEY_PROVISIONED
        = nvs.getU8 KEY_PROVISIONED)
  ∧ ((store_credentials wOk nvs creds).2 = true →
      (store_credentials wOk nvs creds).1.getU8 KEY_PROVISIONED = some 1)
  ∧ ((store_credentials wOk nvs creds).2 = false →
      is_provisioned true (store_credentials wOk nvs creds).1
        = is_provisioned true nvs)
  ∧ (is_provisioned true nvs = false →
      (store_credentials wOk nvs creds).2 = false →
      is_provisioned true (store_credentials wOk nvs creds).1 = false)
  ∧ (wOk 0 = true → containsNul creds.wifi_ssid = false →
      wOk 1 = true → containsNul creds.wifi_password = false →
      wOk 2 = true → containsNul creds.api_key = false →
      wOk 3 = true → containsNul creds.device_id = false →
      wOk 4 = false →
      (store_credentials wOk nvs creds).2 = false ∧
      (store_credentials wOk nvs creds).1.getStr KEY_WIFI_SSID
        = some creds.wifi_ssid ∧
      (store_credentials wOk nvs creds).1.getStr KEY_WIFI_PASS
        = some creds.wifi_password ∧
      (store_credentials wOk nvs creds).1.getStr KEY_API_KEY
        = some creds.api_key ∧
      (store_credentials wOk nvs creds).1.getStr KEY_DEVICE_ID
        = some creds.device_id) := by
  have hA : (store_credentials wOk nvs creds).2 = false →
      (store_credentials wOk nvs creds).1.getU8 KEY_PROVISIONED
        = nvs.getU8 KEY_PROVISIONED := by
    intro hf
    rw [store_snd_eq] at hf
    simp [Nvs.getU8, store_fst_u8s, hf]
  have hC : (store_credentials wOk nvs creds).2 = false →
      is_provisioned true (store_credentials wOk nvs creds).1
        = is_provisioned true nvs := by
    intro hf
    unfold is_provisioned
    rw [hA hf]
  refine ⟨hA, ?_, hC, ?_, ?_⟩
  · intro ht
    rw [store_snd_eq] at ht
    simp [Nvs.getU8, store_fst_u8s, ht, List.find?]
  · intro hnp hf
    rw [hC hf]
    exact hnp
  · intro h0 n0 h1 n1 h2 n2 h3 n3 h4
    refine ⟨?_, ?_, ?_, ?_, ?_⟩
    · rw [store_snd_eq]
      simp [h0, n0, h1, n1, h2, n2, h3, n3, h4]
    · rw [store_partial_fst wOk nvs creds h0 n0 h1 n1 h2 n2 h3 n3 h4]
      rw [getStr_setStr_of_ne _ _ _ _ (by decide),
        getStr_setStr_of_ne _ _ _ _ (by decide),
        getStr_setStr_of_ne _ _ _ _ (by decide)]
      exact getStr_setStr_self _ _ _
    · rw [store_partial_fst wOk nvs creds h0 n0 h1 n1 h2 n2 h3 n3 h4]
      rw [getStr_setStr_of_ne _ _ _ _ (by decide),
        getStr_setStr_of_ne _ _ _ _ (by decide)]
      exact getStr_setStr_self _ _ _
    · rw [store_partial_fst wOk nvs creds h0 n0 h1 n1 h2 n2 h3 n3 h4]
      rw [getStr_setStr_of_ne _ _ _ _ (by decide)]
      exact getStr_setStr_self _ _ _
    · rw [store_partial_fst wOk nvs creds h0 n0 h1 n1 h2 n2 h3 n3 h4]
      exact getStr_setStr_self _ _ _

theorem c2_witness :
    is_provisioned true (store_credentials (fun n => decide (n < 2)) emptyNvs
      ⟨"a", "b", "c", "d"⟩).1 = false :=
  (c2_flag_written_last (fun n => decide (n < 2)) emptyNvs
    ⟨"a", "b", "c", "d"⟩).2.2.2.1 (by decide) (by decide)

set_option maxRecDepth 8192 in
/-- C3 counterexample: the claim fails as stated.  The record whose ssid is
256 'a' characters (non-empty ssid, password and device_id) is stored
successfully — `nvs_set_str` accepts values far larger than that — but
`load_credentials` then fails instead of returning an equal record: the
stored ssid does not fit the source's 256-byte read buffer together with
its terminator, so `get_str` errors and `?` propagates the failure. -/
theorem c3_counterexample :
    String.mk (List.replicate 256 'a') ≠ "" ∧
    (store_credentials (fun _ => true) emptyNvs
      ⟨String.mk (List.replicate 256 'a'), "p", "", "d"⟩).2 = true ∧
    load_credentials (store_credentials (fun _ => true) emptyNvs
      ⟨String.mk (List.replicate 256 'a'), "p", "", "d"⟩).1 = none := by
  decide

/-- C3 (amended): for every Credential Record `r` with non-empty ssid,
password and device_id, each of whose four fields is at most 255 UTF-8
bytes long (so it fits the load's 256-byte read buffer together with its
terminator), if `store_credentials(r)` succeeds then a subsequent
`load_credentials` succeeds and returns a record equal to `r` in all four
fields. -/
theorem c3_store_load_round_trip (wOk : Nat → Bool) (nvs : Nvs)
    (r : Credentials)
    (hs : r.wifi_ssid ≠ "") (hp : r.wifi_password ≠ "")
    (hd : r.device_id ≠ "")
    (l1 : utf8ByteLength r.wifi_ssid ≤ 255)
    (l2 : utf8ByteLength r.wifi_password ≤ 255)
    (l3 : utf8ByteLength r.api_key ≤ 255)
    (l4 : utf8ByteLength r.device_id ≤ 255)
    (hok : (store_credentials wOk nvs r).2 = true) :
    load_credentials (store_credentials wOk nvs r).1 = some r := by
  rw [store_snd_eq] at hok
  simp only [Bool.and_eq_true, Bool.not_eq_true'] at hok
  obtain ⟨⟨⟨⟨⟨hw0, hn0⟩, hw1, hn1⟩, hw2, hn2⟩, hw3, hn3⟩, hw4⟩ := hok
  rw [store_success_fst wOk nvs r hw0 hn0 hw1 hn1 hw2 hn2 hw3 hn3 hw4]
  set m := (((nvs.setStr KEY_WIFI_SSID r.wifi_ssid).setStr KEY_WIFI_PASS
    r.wifi_password).setStr KEY_API_KEY r.api_key).setStr KEY_DEVICE_ID
    r.device_id with hm
  have hflag := getU8_setU8_self m KEY_PROVISIONED 1
  have hprov : is_provisioned true (m.setU8 KEY_PROVISIONED 1) = true := by
    simp [is_provisioned, hflag]
  have gs : (m.setU8 KEY_PROVISIONED 1).getStr KEY_WIFI_SSID
      = some r.wifi_ssid := by
    rw [getStr_setU8, hm,
      getStr_setStr_of_ne _ _ _ _ (by decide),
      getStr_setStr_of_ne _ _ _ _ (by decide),
      getStr_setStr_of_ne _ _ _ _ (by decide)]
    exact getStr_setStr_self _ _ _
  have gp : (m.setU8 KEY_PROVISIONED 1).getStr KEY_WIFI_PASS
      = some r.wifi_password := by
    rw [getStr_setU8, hm,
      getStr_setStr_of_ne _ _ _ _ (by decide),
      getStr_setStr_of_ne _ _ _ _ (by decide)]
    exact getStr_setStr_self _ _ _
  have ga : (m.setU8 KEY_PROVISIONED 1).getStr KEY_API_KEY
      = some r.api_key := by
    rw [getStr_setU8, hm, getStr_setStr_of_ne _ _ _ _ (by decide)]
    exact getStr_setStr_self _ _ _
  have gd : (m.setU8 KEY_PROVISIONED 1).getStr KEY_DEVICE_ID
      = some r.device_id := by
    rw [getStr_setU8, hm]
    exact getStr_setStr_self _ _ _
  have bs : getStrBuf (m.setU8 KEY_PROVISIONED 1) KEY_WIFI_SSID
      = some (some r.wifi_ssid) := by
    have hb := getStrBuf_eq_of_fit (m.setU8 KEY_PROVISIONED 1) KEY_WIFI_SSID
      (fun v hv => by
        rw [gs] at hv
        injection hv with he
        rw [← he]
        exact l1)
    rw [gs] at hb
    exact hb
  have bp : getStrBuf (m.setU8 KEY_PROVISIONED 1) KEY_WIFI_PASS
      = some (some r.wifi_password) := by
    have hb := getStrBuf_eq_of_fit (m.setU8 KEY_PROVISIONED 1) KEY_WIFI_PASS
      (fun v hv => by
        rw [gp] at hv
        injection hv with he
        rw [← he]
        exact l2)
    rw [gp] at hb
    exact hb
  have ba : getStrBuf (m.setU8 KEY_PROVISIONED 1) KEY_API_KEY
      = some (some r.api_key) := by
    have hb := getStrBuf_eq_of_fit (m.setU8 KEY_PROVISIONED 1) KEY_API_KEY
      (fun v hv => by
        rw [ga] at hv
        injection hv with he
        rw [← he]
        exact l3)
    rw [ga] at hb
    exact hb
  have bd : getStrBuf (m.setU8 KEY_PROVISIONED 1) KEY_DEVICE_ID
      = some (some r.device_id) := by
    have hb := getStrBuf_eq_of_fit (m.setU8 KEY_PROVISIONED 1) KEY_DEVICE_ID
      (fun v hv => by
        rw [gd] at hv
        injection hv with he
        rw [← he]
        exact l4)
    rw [gd] at hb
    exact hb
  have t1 : trimEndNul r.wifi_ssid = r.wifi_ssid :=
    trimEndNul_of_endsInNul_false _ (endsInNul_false_of_not_containsNul _ hn0)
  have t2 : trimEndNul r.wifi_password = r.wifi_password :=
    trimEndNul_of_endsInNul_false _ (endsInNul_false_of_not_containsNul _ hn1)
  have t3 : trimEndNul r.api_key = r.api_key :=
    trimEndNul_of_endsInNul_false _ (endsInNul_false_of_not_containsNul _ hn2)
  have t4 : trimEndNul r.device_id = r.device_id :=
    trimEndNul_of_endsInNul_false _ (endsInNul_false_of_not_containsNul _ hn3)
  unfold load_credentials
  rw [hprov]
  simp [bs, bp, ba, bd, t1, t2, t3, t4]

theorem c3_witness :
    load_credentials (store_credentials (fun _ => true) emptyNvs
      ⟨"MyNet", "pw", "key", "dev1"⟩).1
      = some ⟨"MyNet", "pw", "key", "dev1"⟩ :=
  c3_store_load_round_trip (fun _ => true) emptyNvs
    ⟨"MyNet", "pw", "key", "dev1"⟩ (by decide) (by decide) (by decide)
    (by decide) (by decide) (by decide) (by decide) (by decide)

set_option maxRecDepth 8192 in
/-- C9 counterexample: the claim fails as stated.  In the storage state
holding only the flag (set to 1) and a 256-byte `wifi_pass` value, the
`wifi_ssid` key is absent, yet `load_credentials` does not return success:
the present password does not fit the source's 256-byte read buffer
together with its terminator, so `get_str` errors and `?` propagates the
failure. -/
theorem c9_counterexample :
    ((emptyNvs.setU8 KEY_PROVISIONED 1).setStr KEY_WIFI_PASS
      (String.mk (List.replicate 256 'a'))).getU8 KEY_PROVISIONED
      = some 1 ∧
    ((emptyNvs.setU8 KEY_PROVISIONED 1).setStr KEY_WIFI_PASS
      (String.mk (List.replicate 256 'a'))).getStr KEY_WIFI_SSID = none ∧
    load_credentials ((emptyNvs.setU8 KEY_PROVISIONED 1).setStr
      KEY_WIFI_PASS (String.mk (List.replicate 256 'a'))) = none := by
  decide

/-- C9 (amended): if the provisioned flag holds 1 and every field value
present in storage is at most 255 UTF-8 bytes (fitting the load's 256-byte
read buffer), then `load_credentials` succeeds no matter which of the four
field keys are absent, and each absent field comes back as the empty
string — in particular the loaded record can have an empty `wifi_ssid`, so
the caller cannot rely on the non-empty record invariant. -/
theorem c9_load_with_absent_fields (nvs : Nvs)
    (hflag : nvs.getU8 KEY_PROVISIONED = some 1)
    (f1 : ∀ v, nvs.getStr KEY_WIFI_SSID = some v → utf8ByteLength v ≤ 255)
    (f2 : ∀ v, nvs.getStr KEY_WIFI_PASS = some v → utf8ByteLength v ≤ 255)
    (f3 : ∀ v, nvs.getStr KEY_API_KEY = some v → utf8ByteLength v ≤ 255)
    (f4 : ∀ v, nvs.getStr KEY_DEVICE_ID = some v →
      utf8ByteLength v ≤ 255) :
    (load_credentials nvs).isSome = true
  ∧ (nvs.getStr KEY_WIFI_SSID = none →
      (load_credentials nvs).map Credentials.wifi_ssid = some "")
  ∧ (nvs.getStr KEY_WIFI_PASS = none →
      (load_credentials nvs).map Credentials.wifi_password = some "")
  ∧ (nvs.getStr KEY_API_KEY = none →
      (load_credentials nvs).map Credentials.api_key = some "")
  ∧ (nvs.getStr KEY_DEVICE_ID = none →
      (load_credentials nvs).map Credentials.device_id = some "") := by
  have hprov : is_provisioned true nvs = true := by
    simp [is_provisioned, hflag]
  have b1 := getStrBuf_eq_of_fit nvs KEY_WIFI_SSID f1
  have b2 := getStrBuf_eq_of_fit nvs KEY_WIFI_PASS f2
  have b3 := getStrBuf_eq_of_fit nvs KEY_API_KEY f3
  have b4 := getStrBuf_eq_of_fit nvs KEY_DEVICE_ID f4
  unfold load_credentials
  rw [hprov]
  refine ⟨by simp [b1, b2, b3, b4], ?_, ?_, ?_, ?_⟩ <;> intro h <;>
    simp [b1, b2, b3, b4, h]

theorem c9_witness :
    (load_credentials (emptyNvs.setU8 KEY_PROVISIONED 1)).map
      Credentials.wifi_ssid = some "" :=
  (c9_load_with_absent_fields (emptyNvs.setU8 KEY_PROVISIONED 1)
    (by decide)
    (fun v hv => by simp [emptyNvs, Nvs.setU8, Nvs.getStr] at hv)
    (fun v hv => by simp [emptyNvs, Nvs.setU8, Nvs.getStr] at hv)
    (fun v hv => by simp [emptyNvs, Nvs.setU8, Nvs.getStr] at hv)
    (fun v hv => by simp [emptyNvs, Nvs.setU8, Nvs.getStr] at hv)).2.1
    (by decide)

-- ── URL decoding (src/provisioning.rs lines 289-307) ──
-- `u8::from_str_radix(&hex, 16)` on the up-to-two collected characters:
-- an optional leading sign, then hex digits; empty digit strings fail, and
-- a negative non-zero value underflows the unsigned type ("-0" parses to 0).

def hexDigitVal? (c : Char) : Option Nat :=
  let n := c.toNat
  if 48 ≤ n ∧ n ≤ 57 then some (n - 48)
  else if 97 ≤ n ∧ n ≤ 102 then some (n - 87)
  else if 65 ≤ n ∧ n ≤ 70 then some (n - 55)
  else none

def parseHexDigits (cs : List Char) : Option Nat :=
  cs.foldl (fun acc c =>
    match acc, hexDigitVal? c with
    | some a, some d => if 16 * a + d ≤ 255 then some (16 * a + d) else none
    | _, _ => none) (some 0)

def u8FromStrRadix16 (cs : List Char) : Option Nat :=
  match cs with
  | [] => none
  | c :: rest =>
    if c = '+' then
      if rest.isEmpty then none else parseHexDigits rest
    else if c = '-' then
      if rest.isEmpty then none
      else match parseHexDigits rest with
        | some 0 => some 0
        | _ => none
    else parseHexDigits cs

-- The decoding loop of `urlencoding_decode`: '+' becomes a space; on '%'
-- the next two characters are consumed (`chars.by_ref().take(2)`) and, when
-- they parse as a u8 in base 16, the byte is pushed `as char`; when they do
-- not parse, nothing is pushed; every other character is copied.  The match
-- is split on how many characters remain after the current one, because
-- `take(2)` collects only what is left: none after a final '%', one when
-- exactly one remains, two otherwise.

def decodeChars : List Char → List Char
  | [] => []
  | [c] =>
    if c = '+' then [' ']
    else if c = '%' then
      match u8FromStrRadix16 [] with
      | some b => [Char.ofNat b]
      | none => []
    else [c]
  | [c, c1] =>
    if c = '+' then ' ' :: decodeChars [c1]
    else if c = '%' then
      match u8FromStrRadix16 [c1] with
      | some b => [Char.ofNat b]
      | none => []
    else c :: decodeChars [c1]
  | c :: c1 :: c2 :: rest2 =>
    if c = '+' then ' ' :: decodeChars (c1 :: c2 :: rest2)
    else if c = '%' then
      match u8FromStrRadix16 [c1, c2] with
      | some b => Char.ofNat b :: decodeChars rest2
      | none => decodeChars rest2
    else c :: decodeChars (c1 :: c2 :: rest2)

def urlencoding_decode (input : String) : String :=
  ⟨decodeChars input.data⟩

-- Spec-side decoder, written from the claim's words: '+' maps to a space,
-- a '%XX' escape with two hex digits maps to the byte XX, and every other
-- character is left unchanged.

def isHexDigitChar (c : Char) : Bool :=
  (hexDigitVal? c).isSome

def decodeSpec : List Char → List Char
  | [] => []
  | [c] => if c = '+' then [' '] else [c]
  | [c, c1] =>
    if c = '+' then ' ' :: decodeSpec [c1] else c :: decodeSpec [c1]
  | c :: c1 :: c2 :: rest2 =>
    if c = '+' then ' ' :: decodeSpec (c1 :: c2 :: rest2)
    else if c = '%' then
      match hexDigitVal? c1, hexDigitVal? c2 with
      | some d1, some d2 => Char.ofNat (16 * d1 + d2) :: decodeSpec rest2
      | _, _ => c :: decodeSpec (c1 :: c2 :: rest2)
    else c :: decodeSpec (c1 :: c2 :: rest2)

-- Inputs in which every '%' is followed by two hex digits.

def escapesWellFormed : List Char → Bool
  | [] => true
  | [c] => if c = '%' then false else true
  | [c, c1] => if c = '%' then false else escapesWellFormed [c1]
  | c :: c1 :: c2 :: rest2 =>
    if c = '%' then
      isHexDigitChar c1 && isHexDigitChar c2 && escapesWellFormed rest2
    else escapesWellFormed (c1 :: c2 :: rest2)

theorem hexDigitVal_le_15 (c : Char) (d : Nat) (h : hexDigitVal? c = some d) :
    d ≤ 15 := by
  simp only [hexDigitVal?] at h
  split at h
  · simp only [Option.some.injEq] at h
    omega
  · split at h
    · simp only [Option.some.injEq] at h
      omega
    · split at h
      · simp only [Option.some.injEq] at h
        omega
      · exact absurd h (by simp)

theorem hexDigitVal_ne_sign (c : Char) (d : Nat)
    (h : hexDigitVal? c = some d) : c ≠ '+' ∧ c ≠ '-' := by
  refine ⟨?_, ?_⟩ <;> rintro rfl
  · rw [(by decide : hexDigitVal? '+' = none)] at h
    exact Option.noConfusion h
  · rw [(by decide : hexDigitVal? '-' = none)] at h
    exact Option.noConfusion h

theorem u8FromStrRadix16_two_hex (c1 c2 : Char) (d1 d2 : Nat)
    (h1 : hexDigitVal? c1 = some d1) (h2 : hexDigitVal? c2 = some d2) :
    u8FromStrRadix16 [c1, c2] = some (16 * d1 + d2) := by
  obtain ⟨hne1, hne2⟩ := hexDigitVal_ne_sign c1 d1 h1
  have b1 := hexDigitVal_le_15 c1 d1 h1
  have b2 := hexDigitVal_le_15 c2 d2 h2
  simp only [u8FromStrRadix16]
  rw [if_neg hne1, if_neg hne2]
  simp only [parseHexDigits, List.foldl_cons, List.foldl_nil, h1,
    Nat.mul_zero, Nat.zero_add]
  rw [if_pos (by omega : d1 ≤ 255)]
  simp only [h2]
  rw [if_pos (by omega : 16 * d1 + d2 ≤ 255)]

theorem isHexDigitChar_exists (c : Char) (h : isHexDigitChar c = true) :
    ∃ d, hexDigitVal? c = some d := by
  unfold isHexDigitChar at h
  exact Option.isSome_iff_exists.mp h

theorem decodeChars_eq_decodeSpec : ∀ cs : List Char,
    escapesWellFormed cs = true → decodeChars cs = decodeSpec cs
  | [], _ => rfl
  | [c], h => by
    by_cases hp : c = '+'
    · subst hp
      rfl
    · by_cases hpc : c = '%'
      · subst hpc
        simp [escapesWellFormed] at h
      · simp [decodeChars, decodeSpec, hp, hpc]
  | [c, c1], h => by
    by_cases hpc : c = '%'
    · subst hpc
      simp [escapesWellFormed] at h
    · have h1 : escapesWellFormed [c1] = true := by
        simpa [escapesWellFormed, hpc] using h
      have ih := decodeChars_eq_decodeSpec [c1] h1
      by_cases hp : c = '+'
      · subst hp
        show ' ' :: decodeChars [c1] = ' ' :: decodeSpec [c1]
        rw [ih]
      · have e1 : decodeChars [c, c1] = c :: decodeChars [c1] := by
          simp [decodeChars, hp, hpc]
        have e2 : decodeSpec [c, c1] = c :: decodeSpec [c1] := by
          simp [decodeSpec, hp]
        rw [e1, e2, ih]
  | c :: c1 :: c2 :: rest2, h => by
    by_cases hp : c = '+'
    · subst hp
      have h2 : escapesWellFormed (c1 :: c2 :: rest2) = true := by
        simpa [escapesWellFormed] using h
      have ih := decodeChars_eq_decodeSpec (c1 :: c2 :: rest2) h2
      simp [decodeChars, decodeSpec, ih]
    · by_cases hpc : c = '%'
      · subst hpc
        have h' : isHexDigitChar c1 = true ∧ isHexDigitChar c2 = true ∧
            escapesWellFormed rest2 = true := by
          simpa [escapesWellFormed, Bool.and_eq_true, and_assoc] using h
        obtain ⟨hx1, hx2, hwf2⟩ := h'
        obtain ⟨d1, hd1⟩ := isHexDigitChar_exists c1 hx1
        obtain ⟨d2, hd2⟩ := isHexDigitChar_exists c2 hx2
        have ih := decodeChars_eq_decodeSpec rest2 hwf2
        simp [decodeChars, decodeSpec, hd1, hd2,
          u8FromStrRadix16_two_hex c1 c2 d1 d2 hd1 hd2, ih]
      · have h2 : escapesWellFormed (c1 :: c2 :: rest2) = true := by
          simpa [escapesWellFormed, hpc] using h
        have ih := decodeChars_eq_decodeSpec (c1 :: c2 :: rest2) h2
        simp [decodeChars, decodeSpec, hp, hpc, ih]

/-- C4 counterexample: the claim fails as stated.  On the input `"%zz"`
there is no `'+'` and no `'%XX'` escape with two hex digits, so by the
claim every character should be left unchanged, yielding `"%zz"`; the code
instead consumes the `'%'` together with the two following characters and
emits nothing, yielding `""`. -/
theorem c4_counterexample :
    urlencoding_decode "%zz" = "" ∧ urlencoding_decode "%zz" ≠ "%zz" := by
  decide

/-- C4 (amended): for every input string in which each `'%'` is immediately
followed by two hex digits, the decoder maps `'+'` to a space and each
`'%XX'` escape to the byte `XX`, leaving all other characters unchanged
(`decodeSpec` is written from the claim's words); on a malformed escape the
`'%'` and the up-to-two characters following it are consumed and the escape
contributes the byte they parse to or nothing.  The two examples of the
claim hold: decoding `"My+Home"` yields `"My Home"` and decoding
`"ab%21cd"` yields `"ab!cd"`. -/
theorem c4_decode_amended :
    (∀ cs : List Char, escapesWellFormed cs = true →
      decodeChars cs = decodeSpec cs)
  ∧ urlencoding_decode "My+Home" = "My Home"
  ∧ urlencoding_decode "ab%21cd" = "ab!cd" :=
  ⟨decodeChars_eq_decodeSpec, by decide, by decide⟩

theorem c4_witness :
    decodeChars "a%20b".data = decodeSpec "a%20b".data :=
  c4_decode_amended.1 "a%20b".data (by decide)

-- ── Request body decoding (src/provisioning.rs lines 200-203) ──
-- The handler reads the body into a 512-byte buffer, so at most the first
-- 512 bytes are seen, and runs `std::str::from_utf8(..).unwrap_or("")`.
-- UTF-8 validation follows RFC 3629 as `from_utf8` does (continuation
-- bytes in 80..BF, no overlong forms, no surrogates, max U+10FFFF), via a
-- fuel argument (one unit per decoded character) to keep the recursion
-- structural; `utf8Decode` supplies the list length as fuel, which always
-- suffices since every character consumes at least one byte.

def isUtf8Cont (b : Nat) : Bool := 0x80 ≤ b && b ≤ 0xBF

def utf8DecodeAux : Nat → List Nat → Option (List Char)
  | _, [] => some []
  | 0, _ :: _ => none
  | fuel + 1, b :: rest =>
    if b ≤ 0x7F then
      (utf8DecodeAux fuel rest).map (fun cs => Char.ofNat b :: cs)
    else if 0xC2 ≤ b && b ≤ 0xDF then
      match rest with
      | b1 :: r =>
        if isUtf8Cont b1 then
          (utf8DecodeAux fuel r).map
            (fun cs => Char.ofNat ((b - 0xC0) * 0x40 + (b1 - 0x80)) :: cs)
        else none
      | [] => none
    else if 0xE0 ≤ b && b ≤ 0xEF then
      match rest with
      | b1 :: b2 :: r =>
        if (if b = 0xE0 then 0xA0 ≤ b1 && b1 ≤ 0xBF
            else if b = 0xED then 0x80 ≤ b1 && b1 ≤ 0x9F
            else isUtf8Cont b1) && isUtf8Cont b2 then
          (utf8DecodeAux fuel r).map (fun cs =>
            Char.ofNat ((b - 0xE0) * 0x1000 + (b1 - 0x80) * 0x40
              + (b2 - 0x80)) :: cs)
        else none
      | _ => none
    else if 0xF0 ≤ b && b ≤ 0xF4 then
      match rest with
      | b1 :: b2 :: b3 :: r =>
        if ((if b = 0xF0 then 0x90 ≤ b1 && b1 ≤ 0xBF
            else if b = 0xF4 then 0x80 ≤ b1 && b1 ≤ 0x8F
            else isUtf8Cont b1) && isUtf8Cont b2) && isUtf8Cont b3 then
          (utf8DecodeAux fuel r).map (fun cs =>
            Char.ofNat ((b - 0xF0) * 0x40000 + (b1 - 0x80) * 0x1000
              + (b2 - 0x80) * 0x40 + (b3 - 0x80)) :: cs)
        else none
      | _ => none
    else none

def utf8Decode (bs : List Nat) : Option (List Char) :=
  utf8DecodeAux bs.length bs

-- ── Form parsing (src/provisioning.rs lines 205-222) ──
-- `body_str.split('&')`, and `pair.split_once('=')` on each piece; pieces
-- without '=' are skipped, unknown keys ignored, later pairs overwrite
-- earlier ones.  Splitting is implemented on the character list (the
-- library `String.split` of Rust keeps empty pieces, and so does this).

def splitList (sep : Char) : List Char → List (List Char)
  | [] => [[]]
  | c :: rest =>
    let r := splitList sep rest
    if c = sep then [] :: r
    else
      match r with
      | h :: t => (c :: h) :: t
      | [] => [[c]]

def splitOnceList (sep : Char) : List Char → Option (List Char × List Char)
  | [] => none
  | c :: rest =>
    if c = sep then some ([], rest)
    else
      match splitOnceList sep rest with
      | some (a, b) => some (c :: a, b)
      | none => none

structure FormFields where
  ssid : String
  password : String
  device_id : String
  api_key : String
deriving DecidableEq, Repr

def applyPair (acc : FormFields) (pair : List Char) : FormFields :=
  match splitOnceList '=' pair with
  | some (k, v) =>
    let key : String := ⟨k⟩
    let decoded := urlencoding_decode ⟨v⟩
    if key = "ssid" then { acc with ssid := decoded }
    else if key = "password" then { acc with password := decoded }
    else if key = "device_id" then { acc with device_id := decoded }
    else if key = "api_key" then { acc with api_key := decoded }
    else acc
  | none => acc

def parseForm (body : String) : FormFields :=
  (splitList '&' body.data).foldl applyPair ⟨"", "", "", ""⟩

-- ── The POST /provision handler (src/provisioning.rs lines 199-260) ──
-- `storeCalled` and `storeSucceeded` are ghost observation fields
-- recording whether the handler reached the `store_credentials` call and
-- whether that call returned `Ok`; they are not state of the program.
-- The response is recorded by its HTTP status code: 200 for
-- `into_ok_response` (success page), 400 and 500 for the two
-- `into_status_response` calls.

structure ProvisionState where
  nvs : Nvs
  signal : Bool
deriving DecidableEq, Repr

structure HandlerOutcome where
  state : ProvisionState
  status : Nat
  storeCalled : Bool
  storeSucceeded : Bool
deriving DecidableEq, Repr

def decodeBody (body : List Nat) : String :=
  match utf8Decode (body.take 512) with
  | some cs => ⟨cs⟩
  | none => ""

def handleProvision (wOk : Nat → Bool) (st : ProvisionState)
    (body : List Nat) : HandlerOutcome :=
  let f := parseForm (decodeBody body)
  if f.ssid = "" ∨ f.password = "" ∨ f.device_id = "" then
    ⟨st, 400, false, false⟩
  else
    let r := store_credentials wOk st.nvs
      ⟨f.ssid, f.password, f.api_key, f.device_id⟩
    if r.2 then ⟨⟨r.1, true⟩, 200, true, true⟩
    else ⟨⟨r.1, st.signal⟩, 500, true, false⟩

/-- C1: within a provisioning session the Shared Completion Signal only
moves from `false` to `true`, and the submission handler sets it exactly on
the path where `store_credentials` was called and returned success: after a
handler run the signal is `true` iff it was already `true` or the store
call happened and succeeded.  On every path that skips the store or on
which the store fails, the signal keeps its previous value. -/
theorem c1_signal_iff_store_success (wOk : Nat → Bool) (st : ProvisionState)
    (body : List Nat) :
    (handleProvision wOk st body).state.signal = true ↔
      (st.signal = true ∨
        ((handleProvision wOk st body).storeCalled = true ∧
          (handleProvision wOk st body).storeSucceeded = true)) := by
  unfold handleProvision
  by_cases hv : (parseForm (decodeBody body)).ssid = "" ∨
      (parseForm (decodeBody body)).password = "" ∨
      (parseForm (decodeBody body)).device_id = ""
  · simp [hv]
  · cases hstore : (store_credentials wOk st.nvs
      ⟨(parseForm (decodeBody body)).ssid,
        (parseForm (decodeBody body)).password,
        (parseForm (decodeBody body)).api_key,
        (parseForm (decodeBody body)).device_id⟩).2 <;>
      simp [hv, hstore]

/-- C5: a submission whose decoded ssid, password or device_id is empty is
answered with status 400, `store_credentials` is not called, and neither
the store nor the Shared Completion Signal changes; in particular the body
`"ssid=&password=x&device_id=y"` is rejected this way. -/
theorem c5_validation_rejects_empty (wOk : Nat → Bool)
    (st : ProvisionState) :
    (∀ body : List Nat,
      ((parseForm (decodeBody body)).ssid = "" ∨
        (parseForm (decodeBody body)).password = "" ∨
        (parseForm (decodeBody body)).device_id = "") →
      handleProvision wOk st body = ⟨st, 400, false, false⟩)
  ∧ handleProvision wOk st (utf8Encode "ssid=&password=x&device_id=y")
      = ⟨st, 400, false, false⟩ := by
  constructor
  · intro body hv
    unfold handleProvision
    simp [hv]
  · rfl

theorem c5_witness :
    handleProvision (fun _ => true) ⟨emptyNvs, false⟩
      (utf8Encode "device_id=y") = ⟨⟨emptyNvs, false⟩, 400, false, false⟩ :=
  (c5_validation_rejects_empty (fun _ => true) ⟨emptyNvs, false⟩).1
    (utf8Encode "device_id=y") (by decide)

/-- C10: the handler looks at no more than the first 512 bytes of the
request body, and when those bytes are not valid UTF-8 it parses the empty
string instead, so such a request is answered with status 400 and changes
neither the store nor the Shared Completion Signal. -/
theorem c10_truncation_and_invalid_utf8 (wOk : Nat → Bool)
    (st : ProvisionState) (body : List Nat) :
    handleProvision wOk st body = handleProvision wOk st (body.take 512)
  ∧ (utf8Decode (body.take 512) = none →
      handleProvision wOk st body = ⟨st, 400, false, false⟩) := by
  constructor
  · unfold handleProvision decodeBody
    simp [List.take_take]
  · intro h
    unfold handleProvision decodeBody
    rw [h]
    simp [show (parseForm "").ssid = "" from by decide]

theorem c10_witness :
    handleProvision (fun _ => true) ⟨emptyNvs, false⟩ [255]
      = ⟨⟨emptyNvs, false⟩, 400, false, false⟩ :=
  (c10_truncation_and_invalid_utf8 (fun _ => true) ⟨emptyNvs, false⟩
    [255]).2 (by decide)

-- ── WiFi join procedure (src/wifi.rs lines 20-79) ──
-- The decidable content of `connect` up to the configure step: validation
-- of the ssid (`bail!` on empty), the auth-method choice, the scan lookup
-- (`ap_infos.into_iter().find(|ap| ap.ssid == ssid)`), the channel taken
-- from the found access point, and the `ClientConfiguration` the radio is
-- then given.  The scan results arrive as input (radio capability); the
-- blocking connect/DHCP steps after the configuration are capability calls
-- and carry no further decision logic.

inductive WifiAuthMethod where
  | wpa2Personal
  | noAuth
deriving DecidableEq, Repr

structure AccessPointInfo where
  ssid : String
  channel : Nat
deriving DecidableEq, Repr

structure ClientConfiguration where
  ssid : String
  password : String
  channel : Option Nat
  auth_method : WifiAuthMethod
deriving DecidableEq, Repr

def connect (ssid password : String)
    (scanResults : List AccessPointInfo) : Option ClientConfiguration :=
  if ssid = "" then none
  else
    let auth_method :=
      if password = "" then WifiAuthMethod.noAuth
      else WifiAuthMethod.wpa2Personal
    let target_ap := scanResults.find? (fun ap => ap.ssid == ssid)
    let channel := target_ap.map (fun ap => ap.channel)
    some ⟨ssid, password, channel, auth_method⟩

/-- C8: with a non-empty target ssid, when no scanned access point
advertises that ssid, `connect` still proceeds to the configure/connect
step with no fixed channel (`channel = none`) instead of failing; when one
is found, its channel is put into the client configuration. -/
theorem c8_scan_miss_fallback (ssid password : String)
    (scanResults : List AccessPointInfo) (hs : ssid ≠ "") :
    (scanResults.find? (fun ap => ap.ssid == ssid) = none →
      connect ssid password scanResults = some ⟨ssid, password, none,
        if password = "" then WifiAuthMethod.noAuth
        else WifiAuthMethod.wpa2Personal⟩)
  ∧ (∀ ap : AccessPointInfo,
      scanResults.find? (fun a => a.ssid == ssid) = some ap →
      connect ssid password scanResults = some ⟨ssid, password,
        some ap.channel,
        if password = "" then WifiAuthMethod.noAuth
        else WifiAuthMethod.wpa2Personal⟩) := by
  constructor
  · intro hnone
    unfold connect
    rw [if_neg hs, hnone]
    simp
  · intro ap hfound
    unfold connect
    rw [if_neg hs, hfound]
    simp

theorem c8_witness :
    connect "home" "pw" [⟨"other", 6⟩]
        = some ⟨"home", "pw", none, WifiAuthMethod.wpa2Personal⟩ ∧
      connect "home" "pw" [⟨"other", 6⟩, ⟨"home", 11⟩]
        = some ⟨"home", "pw", some 11, WifiAuthMethod.wpa2Personal⟩ :=
  ⟨(c8_scan_miss_fallback "home" "pw" [⟨"other", 6⟩] (by decide)).1
      (by decide),
    (c8_scan_miss_fallback "home" "pw" [⟨"other", 6⟩, ⟨"home", 11⟩]
      (by decide)).2 ⟨"home", 11⟩ (by decide)⟩

end Paso02
